import Mathlib

/-
Verification of the moltest core (cache store, scenario selector, scenario
executor status mapping, concurrency coordinator, id-expression matcher)
against a shallow Lean embedding of the Python sources
(src/moltest/cli.py, src/moltest/discovery.py, src/src/moltest/cache.py).

Python strings are modelled as Lean String (or List Char for the
id-expression matcher, where substring scanning is char-by-char), Python
ints as Int, Python dict/list/str JSON values as an untyped Json inductive
(json.dump/json.load round-trips such values verbatim, so the cache file is
modelled as holding the Json value itself), and the cache file system state
as an explicit FileState.
-/

namespace Moltest

/-- Result statuses used by the cli ("passed", "failed", "xfailed",
"xpassed", "skipped", "unknown"); the Python code stores them as lowercase
strings. -/
inductive Status where
  | passed
  | failed
  | xfailed
  | xpassed
  | skipped
  | unknown
deriving DecidableEq, Repr

/-- Lowercase string form of a status, as the Python code stores it. -/
def statusString : Status → String
  | .passed => "passed"
  | .failed => "failed"
  | .xfailed => "xfailed"
  | .xpassed => "xpassed"
  | .skipped => "skipped"
  | .unknown => "unknown"

/-- Untyped JSON value, modelling the Python objects handled by
json.load / json.dump in cache.py. Object entries keep insertion order,
as Python dicts do. -/
inductive Json where
  | null
  | jbool (b : Bool)
  | jnum (n : Int)
  | jstr (s : String)
  | jarr (elems : List Json)
  | jobj (entries : List (String × Json))

/-- Ordered-association lookup (Python dict .get). -/
def assocGet : List (String × Json) → String → Option Json
  | [], _ => none
  | (k, v) :: rest, key => if k = key then some v else assocGet rest key

/-- Ordered-association update (Python dict item assignment: replaces in
place when the key exists, appends otherwise). -/
def assocSet : List (String × Json) → String → Json → List (String × Json)
  | [], key, val => [(key, val)]
  | (k, v) :: rest, key, val =>
    if k = key then (k, val) :: rest else (k, v) :: assocSet rest key val

/-- d.get(key) for a JSON value known to be used as a dict; non-dicts give
none (Python would raise, but every caller in the source passes dicts). -/
def objGet : Json → String → Option Json
  | .jobj kvs, key => assocGet kvs key
  | _, _ => none

/-- d[key] = val on a JSON dict; non-dicts are returned unchanged (Python
would raise, but every caller in the source passes dicts). -/
def objSet : Json → String → Json → Json
  | .jobj kvs, key, val => .jobj (assocSet kvs key val)
  | j, _, _ => j

/-- isinstance(data, dict). -/
def is_dict : Json → Bool
  | .jobj _ => true
  | _ => false

/-- cache.py CACHE_VERSION. -/
def CACHE_VERSION : String := "1.0.0"

/-- cache.py get_empty_cache_structure: fresh document with the current
schema version, a timestamp, and an empty scenarios map. The timestamp is
passed in (datetime.now in the source). -/
def get_empty_cache_structure (now : String) : Json :=
  .jobj [("moltest_version", .jstr CACHE_VERSION),
         ("last_run", .jstr now),
         ("scenarios", .jobj [])]

/-- State of the cache file on disk as load_cache can observe it: absent
(FileNotFoundError), unreadable (OSError on the read), present but not
decodable as JSON (json.JSONDecodeError), or present with a decoded JSON
value. -/
inductive FileState where
  | absent
  | ioError
  | notJson
  | content (j : Json)

/-- data.get("moltest_version") != CACHE_VERSION check from load_cache
(true when the version entry is the string CACHE_VERSION). -/
def version_ok (j : Json) : Bool :=
  match objGet j "moltest_version" with
  | some (.jstr v) => v = CACHE_VERSION
  | _ => false

/-- isinstance(data.get("scenarios"), dict) check from load_cache. -/
def scenarios_is_dict (j : Json) : Bool :=
  match objGet j "scenarios" with
  | some (.jobj _) => true
  | _ => false

/-- The structural validation in cache.py load_cache: the document is a
dict, its moltest_version equals CACHE_VERSION, and its scenarios entry is
a dict. -/
def cache_file_valid (j : Json) : Bool :=
  is_dict j && version_ok j && scenarios_is_dict j

/-- cache.py load_cache: absent, unreadable, or corrupted files and
structurally invalid or version-mismatched documents all yield a fresh
empty structure; every branch of the source returns (no exception
escapes). -/
def load_cache (fs : FileState) (now : String) : Json :=
  match fs with
  | .absent => get_empty_cache_structure now
  | .ioError => get_empty_cache_structure now
  | .notJson => get_empty_cache_structure now
  | .content j => if cache_file_valid j then j else get_empty_cache_structure now

/-- cache.py save_cache: refreshes last_run and moltest_version on the
document before writing (in that order in the source). -/
def save_cache_doc (cache_data : Json) (now : String) : Json :=
  objSet (objSet cache_data "last_run" (.jstr now)) "moltest_version" (.jstr CACHE_VERSION)

/-- The cache file after a successful save_cache: the temp file is renamed
over the target, so the file holds exactly the serialized document (on
failure the old file is kept and the temp file removed; the round-trip
claims concern the success path). -/
def save_cache_file (cache_data : Json) (now : String) : FileState :=
  .content (save_cache_doc cache_data now)

/-- cache.py update_scenario_status: statuses outside ["passed", "failed"]
are rejected with a warning and the document is left untouched; otherwise
the scenarios dict (created if missing or not a dict) is upserted in
place. -/
def update_scenario_status (cache_data : Json) (scenario_key status : String) : Json :=
  if status ≠ "passed" ∧ status ≠ "failed" then cache_data
  else
    let scen :=
      match objGet cache_data "scenarios" with
      | some (.jobj kvs) => Json.jobj kvs
      | _ => Json.jobj []
    objSet cache_data "scenarios" (objSet scen scenario_key (.jstr status))

/-- cache.py get_scenario_status: cache_data.get("scenarios", {}).get(key). -/
def get_scenario_status (cache_data : Json) (scenario_key : String) : Option Json :=
  match objGet cache_data "scenarios" with
  | some (.jobj kvs) => assocGet kvs scenario_key
  | _ => none

/-- The allowed persisted status enum of update_scenario_status. -/
def allowed_status (s : String) : Bool :=
  decide (s = "passed") || decide (s = "failed")

/-- cli.py run, lines 403-407: load_cache is wrapped in
try/except (IOError, OSError) with ctx.exit(5) in the handler. load_cache
itself catches FileNotFoundError, json.JSONDecodeError and OSError and
returns in every branch, so no exception reaches the handler and the ok
branch is always taken. -/
def cli_load_cache (fs : FileState) (now : String) : Except Nat Json :=
  .ok (load_cache fs now)

/-- cli.py _run_scenario, lines 265-272: the raw subprocess exit code is
first mapped to passed/failed, then the is_xfail flag inverts the meaning
(raw fail becomes xfailed with the reported code reset to 0; raw pass
becomes xpassed keeping the raw code). Pure in (return_code, is_xfail). -/
def run_scenario_outcome (return_code : Int) (is_xfail : Bool) : Status × Int :=
  let scenario_status := if return_code = 0 then Status.passed else Status.failed
  if is_xfail then
    if scenario_status = Status.failed then (Status.xfailed, 0)
    else (Status.xpassed, return_code)
  else (scenario_status, return_code)

/-- Modelled from the spec: the status table of spec section 4.3, row by
row (exit 0 and not xfail gives passed/0; nonzero and not xfail gives
failed/raw; nonzero and xfail gives xfailed/0; exit 0 and xfail gives
xpassed/0). Stated separately from run_scenario_outcome so the code can be
compared against the table. -/
def spec_status_table (exit_code : Int) (is_xfail : Bool) : Status × Int :=
  if is_xfail = false ∧ exit_code = 0 then (Status.passed, 0)
  else if is_xfail = false then (Status.failed, exit_code)
  else if exit_code ≠ 0 then (Status.xfailed, 0)
  else (Status.xpassed, 0)

/-- One parameter set of a scenario (discovery.py: entries of the
parameters list; the id key may be absent, in which case the cli falls
back to the enumeration index). -/
structure ParamSet where
  pid : Option String
  vars : List (String × String)
deriving DecidableEq, Repr

/-- A discovered scenario as the cli consumes it (cli.py run, lines
477-482): id, scenario name, execution directory, tags, and the optional
parameters list. discovery.py always supplies a (possibly empty) list for
parameters; the field is an Option because the cli accesses it with
.get('parameters') and distinguishes None from a present list. -/
structure ScenarioData where
  id : String
  scenarioName : String
  executionPath : String
  tags : List String
  parameters : Option (List ParamSet)
deriving DecidableEq, Repr

/-- An execution record as built in cli.py run, lines 519-527. -/
structure ExecRecord where
  id : String
  scenarioName : String
  executionPath : String
  vars : List (String × String)
  isXfail : Bool
deriving DecidableEq, Repr

/-- One entry of scenario_results_list (cli.py run): id, status, optional
duration, and the reported return code. -/
structure ResultRec where
  id : String
  status : Status
  duration : Option Int
  returnCode : Int
deriving DecidableEq, Repr

/-- The synthesized skipped result appended for tag-skipped expansions
(cli.py lines 507-514) and for cancelled in-flight records (line 592):
status skipped, no duration, return code 0. -/
def synth_skipped (idStr : String) : ResultRec :=
  { id := idStr, status := .skipped, duration := none, returnCode := 0 }

/-- The failure predicate of cli.py lines 584 and 677:
status.lower() == 'failed' or return_code != 0 (statuses are stored
lowercase). -/
def is_failure_outcome (r : ResultRec) : Bool :=
  decide (r.status = Status.failed) || decide (r.returnCode ≠ 0)

/-- Final process exit code computation from cli.py lines 673-678: 0 for
an empty result list, 1 when any result satisfies the failure predicate,
0 otherwise. -/
def final_exit_code (rs : List ResultRec) : Nat :=
  if rs.isEmpty then 0
  else if rs.any is_failure_outcome then 1 else 0

/-- The implicit default parameter set injected when the scenario declares
none (cli.py line 481: [{'id': 'default', 'vars': {}}]). -/
def default_param_set : ParamSet := { pid := some "default", vars := [] }

/-- cli.py line 481: s_data.get('parameters') or [default]. A Python or-expression
treats both None and the empty list as falsy, so both inject the implicit
default set. -/
def param_sets (s : ScenarioData) : List ParamSet :=
  match s.parameters with
  | none => [default_param_set]
  | some [] => [default_param_set]
  | some ps => ps

/-- cli.py line 485: param.get('id', str(idx)). -/
def param_id (idx : Nat) (p : ParamSet) : String :=
  p.pid.getD (toString idx)

/-- cli.py lines 486-494: the bare scenario id is used only when the
parameters key was None AND the param id is 'default' AND the (possibly
injected) list has length one; every other expansion gets
scenario_id[param_id]. -/
def full_id (s : ScenarioData) (idx : Nat) (p : ParamSet) : String :=
  if s.parameters = none ∧ param_id idx p = "default" ∧ (param_sets s).length = 1
  then s.id
  else s.id ++ "[" ++ (param_id idx p ++ "]")

/-- All execution ids an enumerated scenario expands to. -/
def expand_ids (s : ScenarioData) : List String :=
  (param_sets s).enum.map (fun ip => full_id s ip.1 ip.2)

/-- tags & skip_tags_set nonempty (cli.py line 496). -/
def tag_skip_hit (tags skipTags : List String) : Bool :=
  tags.any (fun t => skipTags.contains t)

/-- cli.py lines 484-527: per-scenario expansion. Each parameter set whose
scenario tags intersect the skip tags synthesizes a skipped result and
attempts a cache update to 'skipped' without creating an ExecutionRecord;
every other set becomes an ExecutionRecord with is_xfail = tags intersect
xfail tags. Returns (appended results, appended records, cache after). -/
def process_step (skipTags xfailTags : List String) (s : ScenarioData)
    (acc : List ResultRec × List ExecRecord × Json) (ip : Nat × ParamSet) :
    List ResultRec × List ExecRecord × Json :=
  let fid := full_id s ip.1 ip.2
  if tag_skip_hit s.tags skipTags then
    (acc.1 ++ [synth_skipped fid], acc.2.1,
     update_scenario_status acc.2.2 fid "skipped")
  else
    (acc.1,
     acc.2.1 ++ [{ id := fid, scenarioName := s.scenarioName,
                   executionPath := s.executionPath, vars := ip.2.vars,
                   isXfail := s.tags.any (fun t => xfailTags.contains t) }],
     acc.2.2)

/-- The enumerated fold over the (possibly injected) parameter sets,
starting from no results, no records, and the incoming cache. -/
def process_scenario (skipTags xfailTags : List String) (cache : Json)
    (s : ScenarioData) : List ResultRec × List ExecRecord × Json :=
  (param_sets s).enum.foldl (process_step skipTags xfailTags s) ([], [], cache)

/-- Early-termination options of the run command (--fail-fast, --maxfail). -/
structure RunConfig where
  failFast : Bool
  maxfail : Int
deriving DecidableEq, Repr

/-- The early-termination condition of cli.py line 587, checked after
every completion: fail_fast or (maxfail > 0 and failure_count >= maxfail).
Note fail_fast alone makes it true, independent of the completed record's
outcome. -/
def early_term_cond (cfg : RunConfig) (failure_count : Nat) : Bool :=
  cfg.failFast || (decide (cfg.maxfail > 0) && decide ((failure_count : Int) ≥ cfg.maxfail))

/-- The result _run_scenario returns for a record whose subprocess ran to
completion, parametrized by the unmodelled subprocess exit code and wall-clock
duration (cli.py lines 263-292). -/
def run_scenario_model (exitOf durOf : ExecRecord → Int) (r : ExecRecord) : ResultRec :=
  let o := run_scenario_outcome (exitOf r) r.isXfail
  { id := r.id, status := o.1, duration := some (durOf r), returnCode := o.2 }

/-- The coordinator loop of cli.py lines 543-606, sequentialized with
completions processed in dispatch order: the head of the in-flight list
completes, its result is appended and the cache updated with its status
string, the failure count is incremented when the failure predicate holds,
then the early-termination condition is evaluated. On trigger the
remaining in-flight records are cancelled with synthesized skipped results
(and attempted 'skipped' cache updates) and the loop stops WITHOUT
touching the still-pending queue, whose records get no result; otherwise
one pending record is dispatched into the vacated slot. The fuel argument
is initialized to the number of records in flight or pending and decreases
by exactly one per processed completion, so the zero branch is reached
only with an empty in-flight list. Returns (results in completion order,
cache, failure count, early-stop flag, never-dispatched leftover). -/
def coord_loop (exitOf durOf : ExecRecord → Int) (cfg : RunConfig) :
    Nat → List ExecRecord → List ExecRecord → Nat → Json →
    List ResultRec × Json × Nat × Bool × List ExecRecord
  | 0, _, pending, fc, cache => ([], cache, fc, false, pending)
  | _ + 1, [], pending, fc, cache => ([], cache, fc, false, pending)
  | fuel + 1, r :: rest, pending, fc, cache =>
    let res := run_scenario_model exitOf durOf r
    let cache1 := update_scenario_status cache res.id (statusString res.status)
    let fc1 := if is_failure_outcome res then fc + 1 else fc
    if early_term_cond cfg fc1 then
      (res :: rest.map (fun p => synth_skipped p.id),
       rest.foldl (fun c p => update_scenario_status c p.id "skipped") cache1,
       fc1, true, pending)
    else
      match pending with
      | [] =>
        let out := coord_loop exitOf durOf cfg fuel rest [] fc1 cache1
        (res :: out.1, out.2)
      | q :: qs =>
        let out := coord_loop exitOf durOf cfg fuel (rest ++ [q]) qs fc1 cache1
        (res :: out.1, out.2)

/-- cli.py lines 529-606: dispatch min(parallel, len(records)) records
into the pool, then run the completion loop. -/
def coord_run (exitOf durOf : ExecRecord → Int) (cfg : RunConfig)
    (parallel : Nat) (records : List ExecRecord) (cache : Json) :
    List ResultRec × Json × Nat × Bool × List ExecRecord :=
  coord_loop exitOf durOf cfg records.length
    (records.take parallel) (records.drop parallel) 0 cache

/-- Tokens produced by compile_id_expression's token regex
(cli.py line 207): parentheses, the whole-word keywords and/or/not, and
bare words (maximal runs of characters that are not parentheses or
whitespace). -/
inductive Tok where
  | lparen
  | rparen
  | tand
  | tor
  | tnot
  | atom (w : List Char)
deriving DecidableEq, Repr

/-- Python regex word character (ASCII fragment relevant here). -/
def word_char (c : Char) : Bool := c.isAlphanum || c = '_'

/-- A character that can be part of a bare-word token ([^()\s]). -/
def atom_char (c : Char) : Bool := !(c = '(' || c = ')' || c.isWhitespace)

/-- Whole-word keyword match at the current scan position: the previous
character (if any) is not a word character, the keyword is a prefix of the
remaining input, and the character after it (if any) is not a word
character — the regex word boundaries around and/or/not. -/
def kw_at (prev : Option Char) (l : List Char) (kw : List Char) : Bool :=
  (match prev with | none => true | some p => !word_char p)
  && kw.isPrefixOf l
  && (match l.drop kw.length with | [] => true | d :: _ => !word_char d)

/-- The scan of re.findall over the token regex: at each position the
alternatives lparen, rparen, and, or, not, bare-word are tried in order;
characters matching none (whitespace) are stepped over. Fuel bounds the
scan by the input length (each step consumes at least one character). -/
def tokenize_go : Nat → Option Char → List Char → List Tok
  | 0, _, _ => []
  | _ + 1, _, [] => []
  | fuel + 1, prev, c :: cs =>
    if c = '(' then Tok.lparen :: tokenize_go fuel (some c) cs
    else if c = ')' then Tok.rparen :: tokenize_go fuel (some c) cs
    else if kw_at prev (c :: cs) ['a', 'n', 'd'] then
      Tok.tand :: tokenize_go fuel (some 'd') ((c :: cs).drop 3)
    else if kw_at prev (c :: cs) ['o', 'r'] then
      Tok.tor :: tokenize_go fuel (some 'r') ((c :: cs).drop 2)
    else if kw_at prev (c :: cs) ['n', 'o', 't'] then
      Tok.tnot :: tokenize_go fuel (some 't') ((c :: cs).drop 3)
    else if c.isWhitespace then tokenize_go fuel (some c) cs
    else
      let run := (c :: cs).takeWhile atom_char
      Tok.atom run :: tokenize_go fuel (some (run.getLastD c)) ((c :: cs).drop run.length)

/-- Token list of an expression string. -/
def tokenize (l : List Char) : List Tok := tokenize_go (l.length + 1) none l

/-- Boolean expressions over substring tests: the shape of the Python
expression compile_id_expression assembles, where each bare word w becomes
(w in scenario_id). -/
inductive BExpr where
  | word (w : List Char)
  | bnot (e : BExpr)
  | band (a b : BExpr)
  | bor (a b : BExpr)
deriving DecidableEq, Repr

mutual

/-- or_test of the Python expression grammar restricted to the assembled
tokens (or binds loosest). -/
def parse_or : Nat → List Tok → Option (BExpr × List Tok)
  | 0, _ => none
  | f + 1, ts =>
    match parse_and f ts with
    | some (e, rest) => parse_or_rest f e rest
    | none => none

def parse_or_rest : Nat → BExpr → List Tok → Option (BExpr × List Tok)
  | 0, _, _ => none
  | f + 1, e, Tok.tor :: ts =>
    match parse_and f ts with
    | some (e2, rest) => parse_or_rest f (BExpr.bor e e2) rest
    | none => none
  | _ + 1, e, ts => some (e, ts)

/-- and_test (and binds tighter than or). -/
def parse_and : Nat → List Tok → Option (BExpr × List Tok)
  | 0, _ => none
  | f + 1, ts =>
    match parse_not f ts with
    | some (e, rest) => parse_and_rest f e rest
    | none => none

def parse_and_rest : Nat → BExpr → List Tok → Option (BExpr × List Tok)
  | 0, _, _ => none
  | f + 1, e, Tok.tand :: ts =>
    match parse_not f ts with
    | some (e2, rest) => parse_and_rest f (BExpr.band e e2) rest
    | none => none
  | _ + 1, e, ts => some (e, ts)

/-- not_test: not binds tightest; atoms are bare-word substring tests and
parenthesized or_tests. -/
def parse_not : Nat → List Tok → Option (BExpr × List Tok)
  | 0, _ => none
  | f + 1, Tok.tnot :: ts =>
    match parse_not f ts with
    | some (e, rest) => some (BExpr.bnot e, rest)
    | none => none
  | _ + 1, Tok.atom w :: ts => some (BExpr.word w, ts)
  | f + 1, Tok.lparen :: ts =>
    match parse_or f ts with
    | some (e, Tok.rparen :: rest) => some (e, rest)
    | _ => none
  | _ + 1, _ => none

end

/-- Full parse of a token list as one Python boolean expression; none
models eval raising (SyntaxError on malformed input, or a runtime error on
shapes like juxtaposed atoms), which the matcher converts to False. -/
def parse_expr (ts : List Tok) : Option BExpr :=
  match parse_or (2 * ts.length + 2) ts with
  | some (e, []) => some e
  | _ => none

/-- Python substring containment (w in scenario_id). -/
def is_substring (needle : List Char) : List Char → Bool
  | [] => needle.isEmpty
  | c :: rest => needle.isPrefixOf (c :: rest) || is_substring needle rest

/-- Evaluation of the assembled boolean expression against one scenario
id, exactly Python's and/or/not over the substring atoms. -/
def beval : BExpr → List Char → Bool
  | .word w, sid => is_substring w sid
  | .bnot e, sid => !(beval e sid)
  | .band a b, sid => beval a sid && beval b sid
  | .bor a b, sid => beval a sid || beval b sid

/-- The matcher closure of cli.py lines 217-221: evaluate the assembled
expression for the given id; any exception makes the matcher return
False. -/
def matcher (expr sid : List Char) : Bool :=
  match parse_expr (tokenize expr) with
  | some e => beval e sid
  | none => false

/-- cli.py compile_id_expression (lines 201-223): an empty expression
matches everything; otherwise the tokenized, reassembled expression is
evaluated per id with exceptions mapped to False. -/
def compile_id_expression (expr : List Char) : List Char → Bool :=
  if expr.isEmpty then fun _ => true else fun sid => matcher expr sid

/-! Helper lemmas about the association-list dict operations. -/

theorem assocGet_assocSet_same (kvs : List (String × Json)) (k : String) (v : Json) :
    assocGet (assocSet kvs k v) k = some v := by
  induction kvs with
  | nil => simp [assocSet, assocGet]
  | cons hd t ih =>
    obtain ⟨k1, v1⟩ := hd
    by_cases hk : k1 = k
    · simp [assocSet, hk, assocGet]
    · simp [assocSet, hk, assocGet, ih]

theorem assocGet_assocSet_other (kvs : List (String × Json)) (k k' : String) (v : Json)
    (hne : k' ≠ k) : assocGet (assocSet kvs k v) k' = assocGet kvs k' := by
  induction kvs with
  | nil => simp [assocSet, assocGet, Ne.symm hne]
  | cons hd t ih =>
    obtain ⟨k1, v1⟩ := hd
    by_cases hk : k1 = k
    · subst hk
      simp [assocSet, assocGet, Ne.symm hne]
    · simp [assocSet, hk, assocGet, ih]

theorem is_dict_objSet (d : Json) (k : String) (v : Json) :
    is_dict (objSet d k v) = is_dict d := by
  cases d <;> rfl

theorem objGet_objSet_same (d : Json) (k : String) (v : Json) (hd : is_dict d = true) :
    objGet (objSet d k v) k = some v := by
  cases d <;> simp_all [is_dict, objSet, objGet, assocGet_assocSet_same]

theorem objGet_objSet_other (d : Json) (k k' : String) (v : Json) (hne : k' ≠ k) :
    objGet (objSet d k v) k' = objGet d k' := by
  cases d <;> simp [objSet, objGet, assocGet_assocSet_other _ _ _ _ hne]

/-! Helper lemmas about update_scenario_status. -/

theorem update_not_allowed (d : Json) (k s : String) (h : allowed_status s = false) :
    update_scenario_status d k s = d := by
  simp only [allowed_status, Bool.or_eq_false_iff, decide_eq_false_iff_not] at h
  simp [update_scenario_status, h.1, h.2]

theorem update_rejects_skipped (d : Json) (k : String) :
    update_scenario_status d k "skipped" = d :=
  update_not_allowed d k "skipped" (by decide)

theorem is_dict_update (d : Json) (k s : String) :
    is_dict (update_scenario_status d k s) = is_dict d := by
  unfold update_scenario_status
  split
  · rfl
  · simp [is_dict_objSet]

theorem get_update_same (d : Json) (k s : String) (hd : is_dict d = true)
    (ha : allowed_status s = true) :
    get_scenario_status (update_scenario_status d k s) k = some (.jstr s) := by
  simp only [allowed_status, Bool.or_eq_true, decide_eq_true_eq] at ha
  have hcond : ¬(s ≠ "passed" ∧ s ≠ "failed") := by
    rcases ha with h | h <;> simp [h]
  unfold update_scenario_status
  rw [if_neg hcond]
  unfold get_scenario_status
  rw [objGet_objSet_same _ _ _ hd]
  cases hscen : objGet d "scenarios" with
  | none => simp [objSet, assocGet_assocSet_same]
  | some sj => cases sj <;> simp [objSet, assocGet_assocSet_same]

theorem get_update_other (d : Json) (k k' s : String) (hne : k' ≠ k) :
    get_scenario_status (update_scenario_status d k s) k' = get_scenario_status d k' := by
  unfold update_scenario_status
  split
  · rfl
  · cases d with
    | jobj kvs =>
      unfold get_scenario_status
      rw [objGet_objSet_same _ _ _ (by rfl)]
      cases hscen : objGet (Json.jobj kvs) "scenarios" with
      | none =>
        simp [objSet, assocGet_assocSet_other _ _ _ _ hne, assocGet, hscen,
          Ne.symm hne]
      | some sj =>
        cases sj <;>
          simp [objSet, assocGet_assocSet_other _ _ _ _ hne, assocGet, hscen,
            Ne.symm hne]
    | null => rfl
    | jbool b => rfl
    | jnum n => rfl
    | jstr s2 => rfl
    | jarr xs => rfl

/-- A sequence of upserts applied in order (repeated calls to
update_scenario_status, as the run command performs them). -/
def apply_updates (doc : Json) (ups : List (String × String)) : Json :=
  ups.foldl (fun d p => update_scenario_status d p.1 p.2) doc

/-- The status of the last upsert in the sequence that targets the given
key, if any. -/
def last_status : List (String × String) → String → Option String
  | [], _ => none
  | p :: rest, k =>
    match last_status rest k with
    | some s => some s
    | none => if p.1 = k then some p.2 else none

theorem last_status_none {l : List (String × String)} {k : String}
    (h : last_status l k = none) : ∀ q ∈ l, q.1 ≠ k := by
  induction l with
  | nil => intro q hq; simp at hq
  | cons p rest ih =>
    intro q hq
    cases hr : last_status rest k with
    | some s => simp [last_status, hr] at h
    | none =>
      simp only [last_status, hr] at h
      rcases List.mem_cons.mp hq with hq | hq
      · subst hq
        intro hk
        rw [if_pos hk] at h
        exact Option.noConfusion h
      · exact ih hr q hq

theorem is_dict_apply_updates (ups : List (String × String)) :
    ∀ d : Json, is_dict (apply_updates d ups) = is_dict d := by
  induction ups with
  | nil => intro d; rfl
  | cons p rest ih =>
    intro d
    show is_dict (apply_updates (update_scenario_status d p.1 p.2) rest) = is_dict d
    rw [ih, is_dict_update]

theorem get_apply_updates_other (ups : List (String × String)) :
    ∀ (d : Json) (k : String), (∀ q ∈ ups, q.1 ≠ k) →
      get_scenario_status (apply_updates d ups) k = get_scenario_status d k := by
  induction ups with
  | nil => intro d k _; rfl
  | cons p rest ih =>
    intro d k hk
    show get_scenario_status (apply_updates (update_scenario_status d p.1 p.2) rest) k
      = get_scenario_status d k
    rw [ih _ _ (fun q hq => hk q (List.mem_cons_of_mem _ hq)),
      get_update_other _ _ _ _ (Ne.symm (hk p (List.mem_cons_self p rest)))]

theorem get_apply_updates (ups : List (String × String)) :
    ∀ (d : Json), is_dict d = true →
      (∀ p ∈ ups, allowed_status p.2 = true) →
      ∀ (k s : String), last_status ups k = some s →
        get_scenario_status (apply_updates d ups) k = some (.jstr s) := by
  induction ups with
  | nil => intro d _ _ k s h; simp [last_status] at h
  | cons p rest ih =>
    intro d hd hall k s hlast
    show get_scenario_status (apply_updates (update_scenario_status d p.1 p.2) rest) k
      = some (.jstr s)
    have hd' : is_dict (update_scenario_status d p.1 p.2) = true := by
      rw [is_dict_update]; exact hd
    have hallr : ∀ q ∈ rest, allowed_status q.2 = true :=
      fun q hq => hall q (List.mem_cons_of_mem _ hq)
    cases hrest : last_status rest k with
    | some s2 =>
      have hs2 : s2 = s := by
        simp only [last_status, hrest] at hlast
        exact Option.some.inj hlast
      subst hs2
      exact ih _ hd' hallr k s2 hrest
    | none =>
      simp only [last_status, hrest] at hlast
      by_cases hpk : p.1 = k
      · rw [if_pos hpk] at hlast
        have hps : p.2 = s := Option.some.inj hlast
        rw [get_apply_updates_other rest _ _ (last_status_none hrest)]
        subst hpk
        subst hps
        exact get_update_same d p.1 p.2 hd (hall p (List.mem_cons_self p rest))
      · rw [if_neg hpk] at hlast
        exact Option.noConfusion hlast

/-! Helper lemmas about the saved document's structure. -/

theorem is_dict_save (d : Json) (now : String) :
    is_dict (save_cache_doc d now) = is_dict d := by
  unfold save_cache_doc
  rw [is_dict_objSet, is_dict_objSet]

theorem objGet_save_scenarios (d : Json) (now : String) :
    objGet (save_cache_doc d now) "scenarios" = objGet d "scenarios" := by
  unfold save_cache_doc
  rw [objGet_objSet_other _ _ _ _ (by decide), objGet_objSet_other _ _ _ _ (by decide)]

theorem version_ok_save (d : Json) (now : String) (hd : is_dict d = true) :
    version_ok (save_cache_doc d now) = true := by
  unfold version_ok save_cache_doc
  rw [objGet_objSet_same _ _ _ (by rw [is_dict_objSet]; exact hd)]
  simp [CACHE_VERSION]

theorem get_scenario_status_save (d : Json) (now : String) (k : String) :
    get_scenario_status (save_cache_doc d now) k = get_scenario_status d k := by
  unfold get_scenario_status
  rw [objGet_save_scenarios]

theorem scenarios_is_dict_of_get_some {d : Json} {k : String} {x : Json}
    (h : get_scenario_status d k = some x) : scenarios_is_dict d = true := by
  unfold get_scenario_status at h
  unfold scenarios_is_dict
  cases hs : objGet d "scenarios" with
  | none => rw [hs] at h; exact Option.noConfusion h
  | some sj =>
    rw [hs] at h
    cases sj <;> first | rfl | exact Option.noConfusion h

theorem load_save_valid (d : Json) (now now2 : String) (hd : is_dict d = true)
    (hs : scenarios_is_dict d = true) :
    load_cache (save_cache_file d now) now2 = save_cache_doc d now := by
  have hvalid : cache_file_valid (save_cache_doc d now) = true := by
    unfold cache_file_valid
    rw [is_dict_save, hd, version_ok_save d now hd]
    have h2 : scenarios_is_dict (save_cache_doc d now) = true := by
      unfold scenarios_is_dict
      rw [objGet_save_scenarios]
      unfold scenarios_is_dict at hs
      exact hs
    rw [h2]
    rfl
  simp only [save_cache_file, load_cache]
  rw [if_pos hvalid]

/-! Helper lemmas about the coordinator loop. -/

theorem is_failure_outcome_synth (idStr : String) :
    is_failure_outcome (synth_skipped idStr) = false := rfl

theorem countP_synth_skips (l : List ExecRecord) :
    List.countP is_failure_outcome (l.map (fun p => synth_skipped p.id)) = 0 := by
  induction l with
  | nil => rfl
  | cons a t ih => simp [List.countP_cons, ih, is_failure_outcome_synth]

theorem coord_loop_length (exitOf durOf : ExecRecord → Int) (cfg : RunConfig) :
    ∀ (fuel : Nat) (inF pend : List ExecRecord) (fc : Nat) (cache : Json),
      fuel = inF.length + pend.length →
      ((coord_loop exitOf durOf cfg fuel inF pend fc cache).1).length
        + ((coord_loop exitOf durOf cfg fuel inF pend fc cache).2.2.2.2).length = fuel := by
  intro fuel
  induction fuel with
  | zero =>
    intro inF pend fc cache h
    simp only [coord_loop, List.length_nil]
    omega
  | succ n ih =>
    intro inF pend fc cache h
    cases inF with
    | nil =>
      simp only [coord_loop, List.length_nil, List.length_cons] at h ⊢
      omega
    | cons r rest =>
      simp only [List.length_cons] at h
      simp only [coord_loop]
      generalize (run_scenario_model exitOf durOf r) = res
      generalize (update_scenario_status cache res.id (statusString res.status)) = cache1
      generalize (if is_failure_outcome res then fc + 1 else fc) = fc1
      split
      · dsimp only
        simp only [List.length_cons, List.length_map]
        omega
      · cases pend with
        | nil =>
          have hn : n = rest.length + List.length ([] : List ExecRecord) := by
            simp only [List.length_nil] at h ⊢
            omega
          have hrec := ih rest [] fc1 cache1 hn
          dsimp only
          simp only [List.length_cons]
          simp only [List.length_nil] at hn
          omega
        | cons q qs =>
          have hn : n = (rest ++ [q]).length + qs.length := by
            simp only [List.length_append, List.length_cons, List.length_nil] at h ⊢
            omega
          have hrec := ih (rest ++ [q]) qs fc1 cache1 hn
          dsimp only
          simp only [List.length_cons]
          simp only [List.length_append, List.length_cons, List.length_nil] at hn
          omega

theorem coord_loop_failcount (exitOf durOf : ExecRecord → Int) (cfg : RunConfig) :
    ∀ (fuel : Nat) (inF pend : List ExecRecord) (fc : Nat) (cache : Json),
      (coord_loop exitOf durOf cfg fuel inF pend fc cache).2.2.1
        = fc + List.countP is_failure_outcome
            (coord_loop exitOf durOf cfg fuel inF pend fc cache).1 := by
  intro fuel
  induction fuel with
  | zero => intro inF pend fc cache; simp [coord_loop]
  | succ n ih =>
    intro inF pend fc cache
    cases inF with
    | nil => simp [coord_loop]
    | cons r rest =>
      simp only [coord_loop]
      generalize (run_scenario_model exitOf durOf r) = res
      generalize (update_scenario_status cache res.id (statusString res.status)) = cache1
      cases hfail : is_failure_outcome res with
      | true =>
        simp only [eq_self_iff_true, if_true]
        split
        · dsimp only
          simp [List.countP_cons, countP_synth_skips, is_failure_outcome_synth, hfail]
        · cases pend with
          | nil =>
            have hrec := ih rest [] (fc + 1) cache1
            dsimp only
            simp [List.countP_cons, hfail]
            omega
          | cons q qs =>
            have hrec := ih (rest ++ [q]) qs (fc + 1) cache1
            dsimp only
            simp [List.countP_cons, hfail]
            omega
      | false =>
        simp only [Bool.false_eq_true, if_false]
        split
        · dsimp only
          simp [List.countP_cons, countP_synth_skips, is_failure_outcome_synth, hfail]
        · cases pend with
          | nil =>
            have hrec := ih rest [] fc cache1
            dsimp only
            simp [List.countP_cons, hfail]
            omega
          | cons q qs =>
            have hrec := ih (rest ++ [q]) qs fc cache1
            dsimp only
            simp [List.countP_cons, hfail]
            omega

theorem final_exit_code_append_skips (rs skips : List ResultRec)
    (h : ∀ r ∈ skips, is_failure_outcome r = false) :
    final_exit_code (rs ++ skips) = final_exit_code rs := by
  have hany : skips.any is_failure_outcome = false := by
    rw [List.any_eq_false]
    intro x hx
    simp [h x hx]
  cases rs with
  | nil =>
    simp only [List.nil_append, final_exit_code]
    cases skips with
    | nil => rfl
    | cons a t =>
      simp only [List.isEmpty_cons, if_false, hany]
      rfl
  | cons a t =>
    simp only [final_exit_code, List.cons_append, List.isEmpty_cons,
      List.any_append, List.any_cons, hany]
    simp [Bool.or_assoc]

theorem string_append_assoc (a b c : String) : (a ++ b) ++ c = a ++ (b ++ c) := by
  cases a with | mk la =>
  cases b with | mk lb =>
  cases c with | mk lc =>
  show String.mk ((la ++ lb) ++ lc) = String.mk (la ++ (lb ++ lc))
  rw [List.append_assoc]

/-! Helper lemma about the selector fold on a tag-skipped scenario. -/

theorem process_step_skip (skipTags xfailTags : List String) (s : ScenarioData)
    (h : tag_skip_hit s.tags skipTags = true) :
    ∀ (ips : List (Nat × ParamSet)) (r0 : List ResultRec) (rec0 : List ExecRecord) (c0 : Json),
      ips.foldl (process_step skipTags xfailTags s) (r0, rec0, c0)
        = (r0 ++ ips.map (fun ip => synth_skipped (full_id s ip.1 ip.2)), rec0, c0) := by
  intro ips
  induction ips with
  | nil => intro r0 rec0 c0; simp
  | cons ip rest ih =>
    intro r0 rec0 c0
    rw [List.foldl_cons]
    have hstep : process_step skipTags xfailTags s (r0, rec0, c0) ip
        = (r0 ++ [synth_skipped (full_id s ip.1 ip.2)], rec0, c0) := by
      simp [process_step, h, update_rejects_skipped]
    rw [hstep, ih]
    simp

/-! Concrete inputs used by the claim theorems, mirroring the fixtures of
tests/test_cli_run.py. -/

def recAlpha : ExecRecord :=
  { id := "role1:alpha", scenarioName := "alpha", executionPath := "/fake/path/role1",
    vars := [], isXfail := false }

def recBeta : ExecRecord :=
  { id := "role2:beta", scenarioName := "beta", executionPath := "/fake/path/role2",
    vars := [], isXfail := false }

def tagged_scenario : ScenarioData :=
  { id := "role1:alpha", scenarioName := "alpha", executionPath := "/fake/path/role1",
    tags := ["slow"], parameters := none }

def empty_params_scenario : ScenarioData :=
  { id := "base", scenarioName := "default", executionPath := "/fake/path/base",
    tags := [], parameters := some [] }

def two_params_scenario : ScenarioData :=
  { id := "base", scenarioName := "default", executionPath := "/fake/path/base",
    tags := [],
    parameters := some [{ pid := some "set1", vars := [("FOO", "A")] },
                        { pid := some "set2", vars := [("FOO", "B")] }] }

/-- C3: for every execution record whose subprocess completes with a raw
exit code, the Executor's result status and reported exit code are the
pure function of (exit_code, is_xfail) given by the spec's table: exit 0
and not xfail gives passed with code 0; nonzero and not xfail gives failed
with the raw code; nonzero and xfail gives xfailed with code 0; exit 0 and
xfail gives xpassed with code 0. -/
theorem executor_status_matches_spec_table :
    ∀ (exit_code : Int) (is_xfail : Bool),
      run_scenario_outcome exit_code is_xfail = spec_status_table exit_code is_xfail := by
  intro ec x
  cases x <;> by_cases h : ec = 0 <;>
    simp [run_scenario_outcome, spec_status_table, h]

/-- C6: cache load always returns a document: an absent, unreadable, or
undecodable cache file, and a decoded document that is not a dict, has a
mismatched schema version, or whose scenarios entry is not a dict, all
yield the freshly initialized empty document, and no such condition
raises (load_cache is total, returning in every branch). -/
theorem load_cache_self_heals :
    ∀ (fs : FileState) (now : String),
      (fs = FileState.absent ∨ fs = FileState.ioError ∨ fs = FileState.notJson
        ∨ ∃ j, fs = FileState.content j
            ∧ (is_dict j = false ∨ version_ok j = false ∨ scenarios_is_dict j = false)) →
      load_cache fs now = get_empty_cache_structure now := by
  intro fs now h
  rcases h with h | h | h | ⟨j, hj, hbad⟩
  · subst h; rfl
  · subst h; rfl
  · subst h; rfl
  · subst hj
    have hv : cache_file_valid j = false := by
      unfold cache_file_valid
      rcases hbad with hb | hb | hb <;> simp [hb]
    simp [load_cache, hv]

/-- C6 witness: a cache file holding a JSON array (not a dict) loads as
the empty document. -/
theorem load_cache_self_heals_witness :
    load_cache (FileState.content (Json.jarr [])) "t" = get_empty_cache_structure "t" :=
  load_cache_self_heals _ _ (Or.inr (Or.inr (Or.inr ⟨Json.jarr [], rfl, Or.inl rfl⟩)))

/-- C9 counterexample: with an unreadable cache file at startup the run is
NOT fatal: load_cache swallows the OSError and returns the fresh empty
document, so the cli's exit-5 handler never fires and the run proceeds
(the claim said the process exits with code 5). -/
theorem unreadable_cache_does_not_exit_5 :
    cli_load_cache FileState.ioError "t" = Except.ok (get_empty_cache_structure "t")
    ∧ cli_load_cache FileState.ioError "t" ≠ (Except.error 5 : Except Nat Json) :=
  ⟨rfl, fun h => Except.noConfusion h⟩

/-- C9 (amended): an unreadable cache file at startup self-heals: load
returns a fresh empty document and the run proceeds; the cli's
exit-code-5 branch is unreachable because load_cache catches the read
error internally and returns in every branch. -/
theorem unreadable_cache_self_heals :
    ∀ now : String,
      load_cache FileState.ioError now = get_empty_cache_structure now
      ∧ ∀ fs : FileState, cli_load_cache fs now = Except.ok (load_cache fs now) := by
  intro now
  exact ⟨rfl, fun fs => rfl⟩

/-- C4 counterexample: a descriptor declaring no parameters as discovery
produces it (parameters present as an empty list) does NOT expand to the
bare scenario id: the implicit default set is injected but the
parameters-is-None test fails, so the execution id is base[default]. -/
theorem empty_params_list_not_bare_id :
    expand_ids empty_params_scenario = ["base[default]"]
    ∧ expand_ids empty_params_scenario ≠ ["base"] := by
  constructor
  · decide
  · decide

/-- C4 (amended): a descriptor with two parameter sets set1 and set2
yields execution ids base[set1] and base[set2]; the bare scenario id is
produced exactly when the parameters field is None (absent), while a
present-but-empty parameters list (what discovery produces when no
parameter file exists) yields base[default]. -/
theorem param_expansion_ids :
    (expand_ids two_params_scenario = ["base[set1]", "base[set2]"])
    ∧ (∀ s : ScenarioData, s.parameters = none → expand_ids s = [s.id])
    ∧ (∀ s : ScenarioData, s.parameters = some [] → expand_ids s = [s.id ++ "[default]"]) := by
  refine ⟨by decide, ?_, ?_⟩
  · intro s h
    have h1 : param_sets s = [default_param_set] := by simp [param_sets, h]
    have h2 : (param_sets s).length = 1 := by rw [h1]; rfl
    simp [expand_ids, h1, List.enum, List.enumFrom, full_id, param_id,
      default_param_set, h, h2]
  · intro s h
    have h1 : param_sets s = [default_param_set] := by simp [param_sets, h]
    have hne : ¬(s.parameters = none ∧ param_id 0 default_param_set = "default"
        ∧ (param_sets s).length = 1) := by
      intro hc
      rw [h] at hc
      exact Option.noConfusion hc.1
    have h3 : full_id s 0 default_param_set = s.id ++ "[" ++ ("default" ++ "]") := by
      unfold full_id
      rw [if_neg hne]
      rfl
    have h4 : ("[" ++ ("default" ++ "]") : String) = "[default]" := by decide
    have h6 : expand_ids s = [full_id s 0 default_param_set] := by
      simp [expand_ids, h1, List.enum, List.enumFrom]
    rw [h6, h3, string_append_assoc, h4]

/-- C4 witness: the amended theorem evaluated at a descriptor whose
parameters field is absent and at one whose parameters list is empty. -/
theorem param_expansion_ids_witness :
    expand_ids { id := "base", scenarioName := "d", executionPath := "p",
                 tags := [], parameters := none } = ["base"]
    ∧ expand_ids empty_params_scenario = [empty_params_scenario.id ++ "[default]"] :=
  ⟨param_expansion_ids.2.1 _ rfl, param_expansion_ids.2.2 _ rfl⟩

/-- C5 counterexample: a tag-skipped expansion synthesizes the skipped
result and creates no record, but the cache is NOT updated to skipped:
update_scenario_status rejects 'skipped' (allowed enum is passed/failed),
so the cache document is returned unchanged and has no entry for the
execution id (the claim said the entry is updated to skipped). -/
theorem tag_skip_does_not_record_skipped_in_cache :
    (process_scenario ["slow"] [] (Json.jobj []) tagged_scenario).1
        = [synth_skipped "role1:alpha"]
    ∧ (process_scenario ["slow"] [] (Json.jobj []) tagged_scenario).2.1 = []
    ∧ (process_scenario ["slow"] [] (Json.jobj []) tagged_scenario).2.2 = Json.jobj []
    ∧ get_scenario_status
        (process_scenario ["slow"] [] (Json.jobj []) tagged_scenario).2.2 "role1:alpha"
        = none :=
  ⟨rfl, rfl, rfl, rfl⟩

/-- C5 (amended): for every expansion whose descriptor tag set intersects
the skip tags, no ExecutionRecord is created and nothing is dispatched;
a skipped ExecutionResult is synthesized immediately for each expansion,
and the attempted cache update to 'skipped' is rejected as a logged no-op
(the allowed persisted enum is passed/failed), leaving the cache document
unchanged. -/
theorem tag_skip_synthesizes_without_record_or_cache_change
    (skipTags xfailTags : List String) (cache : Json) (s : ScenarioData)
    (h : tag_skip_hit s.tags skipTags = true) :
    process_scenario skipTags xfailTags cache s
      = ((expand_ids s).map synth_skipped, [], cache) := by
  unfold process_scenario
  rw [process_step_skip skipTags xfailTags s h]
  simp [expand_ids, List.map_map, Function.comp]

/-- C5 witness: the amended theorem on a tagged scenario against a cache
that already records the id as failed; the failed entry survives. -/
theorem tag_skip_synthesizes_witness :
    process_scenario ["slow"] []
        (Json.jobj [("scenarios", Json.jobj [("role1:alpha", Json.jstr "failed")])])
        tagged_scenario
      = ((expand_ids tagged_scenario).map synth_skipped, [],
         Json.jobj [("scenarios", Json.jobj [("role1:alpha", Json.jstr "failed")])]) :=
  tag_skip_synthesizes_without_record_or_cache_change _ _ _ _ (by decide)

/-- C7: cache round trip: for every dict document and every sequence of
upserts with statuses in the allowed persisted enum, performing the
updates, saving, and loading yields a document in which every upserted id
maps to the status of its last upsert, verbatim. -/
theorem cache_round_trip :
    ∀ (doc : Json) (ups : List (String × String)) (now now2 : String) (k s : String),
      is_dict doc = true →
      (∀ p ∈ ups, allowed_status p.2 = true) →
      last_status ups k = some s →
      get_scenario_status
          (load_cache (save_cache_file (apply_updates doc ups) now) now2) k
        = some (Json.jstr s) := by
  intro doc ups now now2 k s hd hall hlast
  have hu : get_scenario_status (apply_updates doc ups) k = some (.jstr s) :=
    get_apply_updates ups doc hd hall k s hlast
  have hdu : is_dict (apply_updates doc ups) = true := by
    rw [is_dict_apply_updates]; exact hd
  have hsd : scenarios_is_dict (apply_updates doc ups) = true :=
    scenarios_is_dict_of_get_some hu
  rw [load_save_valid _ _ _ hdu hsd, get_scenario_status_save]
  exact hu

/-- C7 witness: two upserts to id a (passed then failed) and one to b:
after save and load, a reads back as failed. -/
theorem cache_round_trip_witness :
    get_scenario_status
        (load_cache
          (save_cache_file
            (apply_updates (get_empty_cache_structure "t0")
              [("a", "passed"), ("a", "failed"), ("b", "passed")]) "t1") "t2") "a"
      = some (Json.jstr "failed") :=
  cache_round_trip _ _ _ _ _ _ (by decide) (by decide) (by decide)

/-- C8: the matcher built from the expression a-and-not-b matches exactly
the ids containing substring a and not containing substring b; and every
expression whose assembled form fails to evaluate (the model's parse
failure, standing for the SyntaxError and similar exceptions the source
catches) matches nothing for every id, without raising. -/
theorem id_expression_matcher :
    (∀ sid : List Char, compile_id_expression ("a and not b".toList) sid
        = (is_substring ("a".toList) sid && !(is_substring ("b".toList) sid)))
    ∧ (∀ expr sid : List Char,
        parse_expr (tokenize expr) = none → matcher expr sid = false) := by
  constructor
  · intro sid
    have hp : parse_expr (tokenize ("a and not b".toList))
        = some (BExpr.band (BExpr.word ['a']) (BExpr.bnot (BExpr.word ['b']))) := by
      decide
    have hne : ("a and not b".toList).isEmpty = false := by decide
    have hc : compile_id_expression ("a and not b".toList) sid
        = matcher ("a and not b".toList) sid := by
      simp [compile_id_expression, hne]
    rw [hc]
    unfold matcher
    rw [hp]
    rfl
  · intro expr sid h
    simp [matcher, h]

/-- C8 witness: the malformed expression and-and matches nothing. -/
theorem id_expression_matcher_witness :
    matcher ("and and".toList) ("xyz".toList) = false :=
  id_expression_matcher.2 _ _ (by decide)

/-- C1 (code bug witness): with fail-fast set, two records, and an
executor whose subprocess exits 0, the coordinator triggers early
termination after the FIRST, PASSING completion: the failure count is
still 0, the early-stop flag is set, and the second record is never run —
the trigger condition of cli.py line 587 is fail_fast alone, not fail_fast
combined with a failing outcome as the claim (and the option's help text)
state. -/
theorem fail_fast_triggers_without_failure :
    coord_run (fun _ => 0) (fun _ => 1) { failFast := true, maxfail := 0 } 1
        [recAlpha, recBeta] (Json.jobj [])
      = ([{ id := "role1:alpha", status := Status.passed, duration := some 1,
            returnCode := 0 }],
         Json.jobj [("scenarios", Json.jobj [("role1:alpha", Json.jstr "passed")])],
         0, true, [recBeta]) := rfl

/-- C2 counterexample: with 2 records, fail-fast, a failing executor, and
the default parallelism of 1, only ONE result is produced: the pending
second record is never dispatched and receives no synthesized skipped
result (the claim says every record yields exactly one result and that
one record is recorded as skipped here). -/
theorem fail_fast_pending_record_gets_no_result :
    ((coord_run (fun _ => 1) (fun _ => 1) { failFast := true, maxfail := 0 } 1
        [recAlpha, recBeta] (Json.jobj [])).1
      = [{ id := "role1:alpha", status := Status.failed, duration := some 1,
           returnCode := 1 }])
    ∧ ((coord_run (fun _ => 1) (fun _ => 1) { failFast := true, maxfail := 0 } 1
        [recAlpha, recBeta] (Json.jobj [])).1.length = 1)
    ∧ (List.countP (fun r => decide (r.status = Status.skipped))
        ((coord_run (fun _ => 1) (fun _ => 1) { failFast := true, maxfail := 0 } 1
          [recAlpha, recBeta] (Json.jobj [])).1) = 0)
    ∧ ((coord_run (fun _ => 1) (fun _ => 1) { failFast := true, maxfail := 0 } 1
        [recAlpha, recBeta] (Json.jobj [])).2.2.2.2 = [recBeta]) :=
  ⟨rfl, rfl, rfl, rfl⟩

/-- C2 (amended): the result list length equals the number of records
dispatched (executed or cancelled in flight); records still pending when
early termination triggers yield no result, so results plus leftover
pending always account for all records. With 2 records, fail-fast, and a
failing executor: at parallelism 2 exactly one record executes and one is
synthesized as skipped; at the default parallelism 1 only the single
executed result is recorded and the second record is left over. -/
theorem results_count_equals_dispatched :
    (∀ (exitOf durOf : ExecRecord → Int) (cfg : RunConfig) (parallel : Nat)
        (records : List ExecRecord) (cache : Json),
        ((coord_run exitOf durOf cfg parallel records cache).1).length
          + ((coord_run exitOf durOf cfg parallel records cache).2.2.2.2).length
          = records.length)
    ∧ ((coord_run (fun _ => 1) (fun _ => 1) { failFast := true, maxfail := 0 } 2
          [recAlpha, recBeta] (Json.jobj [])).1
        = [{ id := "role1:alpha", status := Status.failed, duration := some 1,
             returnCode := 1 },
           synth_skipped "role2:beta"])
    ∧ ((coord_run (fun _ => 1) (fun _ => 1) { failFast := true, maxfail := 0 } 1
          [recAlpha, recBeta] (Json.jobj [])).1.length = 1
        ∧ (coord_run (fun _ => 1) (fun _ => 1) { failFast := true, maxfail := 0 } 1
            [recAlpha, recBeta] (Json.jobj [])).2.2.2.2 = [recBeta]) := by
  refine ⟨?_, rfl, rfl, rfl⟩
  intro exitOf durOf cfg parallel records cache
  apply coord_loop_length
  rw [List.length_take, List.length_drop]
  omega

/-- C10: every synthesized skipped result carries return code 0 and no
duration and never satisfies the failure predicate; the coordinator's
failure count equals the number of results satisfying the failure
predicate (so synthesized skips never increment it); and appending
non-failure results to a result list never changes the final process exit
code. -/
theorem synthesized_skips_never_failures :
    (∀ idStr : String, (synth_skipped idStr).returnCode = 0
        ∧ (synth_skipped idStr).duration = none
        ∧ is_failure_outcome (synth_skipped idStr) = false)
    ∧ (∀ (exitOf durOf : ExecRecord → Int) (cfg : RunConfig) (parallel : Nat)
        (records : List ExecRecord) (cache : Json),
        (coord_run exitOf durOf cfg parallel records cache).2.2.1
          = List.countP is_failure_outcome
              (coord_run exitOf durOf cfg parallel records cache).1)
    ∧ (∀ rs skips : List ResultRec, (∀ r ∈ skips, is_failure_outcome r = false) →
        final_exit_code (rs ++ skips) = final_exit_code rs) := by
  refine ⟨fun idStr => ⟨rfl, rfl, rfl⟩, ?_, final_exit_code_append_skips⟩
  intro exitOf durOf cfg parallel records cache
  simp only [coord_run]
  rw [coord_loop_failcount exitOf durOf cfg records.length
    (records.take parallel) (records.drop parallel) 0 cache, Nat.zero_add]

/-- C10 witness: appending a synthesized skip to a failing result list
leaves the final exit code unchanged. -/
theorem synthesized_skips_never_failures_witness :
    final_exit_code
        ([{ id := "a", status := Status.failed, duration := none, returnCode := 1 }]
          ++ [synth_skipped "b"])
      = final_exit_code
          [{ id := "a", status := Status.failed, duration := none, returnCode := 1 }] :=
  synthesized_skips_never_failures.2.2 _ _ (by decide)

end Moltest


